import Mathlib

/-!
Shallow embedding of the Sweet Bonanza mock outcome generator
(src/src/api/GameAPI.js, class MockGameAPI) together with the free-spin
session bookkeeping of src/src/core/GameStateManager.js.

Conventions of the embedding:
* JS Math.random() draws are modelled by an explicit stream of rationals
  in [0,1); every consumer threads an Rng (stream plus cursor) in exactly
  the order the source consumes draws.
* The 6x5 grid grid[col][row] is modelled as a total function
  Int → Int → Nat; the source only ever reads in-bounds cells (every read
  sits behind the bounds check of floodFill or a 0..5 / 0..4 loop), so
  values outside the board are irrelevant.
* The mutable visited boolean matrix is modelled as the list of positions
  currently marked true.
* The while (queue.length > 0) BFS loop is modelled with explicit fuel;
  200 units strictly exceed the largest possible number of queue pops on a
  6x5 grid (1 initial entry + 4 pushes per each of at most 30 visits).
* The JSON deep copy of the working grid in processTumbles is modelled by
  value-passing of the grid.
-/

namespace SweetBonanza

/-- Grid coordinate as used throughout the source: a column and a row. -/
structure Pos where
  col : Int
  row : Int
deriving DecidableEq, Repr

/-- A grid maps (col, row) to a symbol identifier. -/
abbrev Grid := Int → Int → Nat

/-- GameConfig.WIN_RULES.MIN_CLUSTER_SIZE. -/
def MIN_CLUSTER_SIZE : Nat := 8

/-- GameConfig.GRID.COLS. -/
def GRID_COLS : Nat := 6

/-- GameConfig.GRID.ROWS. -/
def GRID_ROWS : Nat := 5

/-- MockGameAPI.getRandomSymbol: the weighted symbol draw. The argument
random stands for the Math.random() result in [0,1); the source works with
rand = random * 100. -/
def getRandomSymbol (anteBet : Bool) (random : ℚ) : Nat :=
  let rand := random * 100
  if rand < 5 then 0
  else if rand < 10 then 1
  else if rand < 15 then 2
  else if rand < 20 then 3
  else if rand < 25 then 4
  else if rand < 40 then 5
  else if rand < 55 then 6
  else if rand < 70 then 7
  else if rand < 85 then 8
  else if rand < (if anteBet then 95 else 92) then 9
  else 10

/-- Deterministic model of the Math.random() source: a stream of rationals
and a cursor into it. -/
structure Rng where
  stream : Nat → ℚ
  pos : Nat

/-- Draw the next random value and advance the cursor. -/
def Rng.next (g : Rng) : ℚ × Rng := (g.stream g.pos, ⟨g.stream, g.pos + 1⟩)

/-- The col-major cell order (col 0..5 outer, row 0..4 inner) shared by the
loops of generateGrid, detectClusters, findMultipliers and countScatters. -/
def scanOrder : List Pos :=
  (List.range GRID_COLS).flatMap fun c =>
    (List.range GRID_ROWS).map fun r => ⟨(c : Int), (r : Int)⟩

/-- Write one cell of a grid. -/
def setCell (grid : Grid) (c r : Int) (s : Nat) : Grid :=
  fun c2 r2 => if c2 = c ∧ r2 = r then s else grid c2 r2

/-- MockGameAPI.generateGrid: fill every cell col-major, one draw per cell. -/
def generateGrid (anteBet : Bool) (g0 : Rng) : Grid × Rng :=
  scanOrder.foldl
    (fun acc p =>
      let d := acc.2.next
      (setCell acc.1 p.col p.row (getRandomSymbol anteBet d.1), d.2))
    (fun _ _ => 0, g0)

/-- The BFS loop body of MockGameAPI.floodFill, with explicit fuel for the
while loop. Returns (positions, visited). -/
def floodFillAux (grid : Grid) (targetSymbol : Nat) :
    Nat → List Pos → List Pos → List Pos → List Pos × List Pos
  | 0, _, visited, positions => (positions, visited)
  | _ + 1, [], visited, positions => (positions, visited)
  | fuel + 1, p :: queue, visited, positions =>
    if p.col < 0 ∨ 6 ≤ p.col ∨ p.row < 0 ∨ 5 ≤ p.row then
      floodFillAux grid targetSymbol fuel queue visited positions
    else if p ∈ visited then
      floodFillAux grid targetSymbol fuel queue visited positions
    else if grid p.col p.row ≠ targetSymbol then
      floodFillAux grid targetSymbol fuel queue visited positions
    else
      floodFillAux grid targetSymbol fuel
        (queue ++ [⟨p.col + 1, p.row⟩, ⟨p.col - 1, p.row⟩,
                   ⟨p.col, p.row + 1⟩, ⟨p.col, p.row - 1⟩])
        (p :: visited) (positions ++ [p])

/-- Fuel bound for the BFS loop; see the header comment. -/
def floodFillFuel : Nat := 200

/-- MockGameAPI.floodFill. -/
def floodFill (grid : Grid) (startCol startRow : Int) (targetSymbol : Nat)
    (visited : List Pos) : List Pos × List Pos :=
  floodFillAux grid targetSymbol floodFillFuel [⟨startCol, startRow⟩] visited []

/-- A detected cluster, as pushed by MockGameAPI.detectClusters. -/
structure Cluster where
  symbolId : Nat
  positions : List Pos
  size : Nat
deriving DecidableEq, Repr

/-- The scan loop of MockGameAPI.detectClusters, threading the visited set:
scatter (9) and multiplier (10) cells are marked visited and skipped; other
unvisited cells seed a flood fill, emitted only when at least 8 cells. -/
def detectClustersAux (grid : Grid) :
    List Pos → List Pos → List Cluster → List Cluster × List Pos
  | [], visited, clusters => (clusters, visited)
  | p :: rest, visited, clusters =>
    if p ∈ visited then
      detectClustersAux grid rest visited clusters
    else
      let symbolId := grid p.col p.row
      if symbolId = 9 ∨ symbolId = 10 then
        detectClustersAux grid rest (p :: visited) clusters
      else
        let res := floodFill grid p.col p.row symbolId visited
        if 8 ≤ res.1.length then
          detectClustersAux grid rest res.2
            (clusters ++ [⟨symbolId, res.1, res.1.length⟩])
        else
          detectClustersAux grid rest res.2 clusters

/-- MockGameAPI.detectClusters. -/
def detectClusters (grid : Grid) : List Cluster :=
  (detectClustersAux grid scanOrder [] []).1

/-- A multiplier-bomb cell together with its drawn value. -/
structure Multiplier where
  col : Int
  row : Int
  value : ℚ
deriving DecidableEq, Repr

/-- The multiplierValues table of MockGameAPI.findMultipliers. -/
def multiplierValues : List ℚ :=
  [2, 3, 4, 5, 6, 7, 8, 9, 10, 12, 15, 20, 25, 50, 100]

/-- MockGameAPI.findMultipliers: scan col-major; every bomb cell (symbol 10)
draws one random value multiplierValues[floor(random * 15)]. -/
def findMultipliers (grid : Grid) (g0 : Rng) : List Multiplier × Rng :=
  scanOrder.foldl
    (fun acc p =>
      if grid p.col p.row = 10 then
        let d := acc.2.next
        (acc.1 ++ [⟨p.col, p.row, multiplierValues.getD (Int.toNat ⌊d.1 * 15⌋) 0⟩],
         d.2)
      else acc)
    ([], g0)

/-- MockGameAPI.countScatters. -/
def countScatters (grid : Grid) : Nat :=
  scanOrder.foldl (fun count p => if grid p.col p.row = 9 then count + 1 else count) 0

/-- The size-tier payout table of MockGameAPI.calculateWin. -/
def clusterPayout (size : Nat) : ℚ :=
  if 8 ≤ size ∧ size < 10 then 1/2
  else if 10 ≤ size ∧ size < 12 then 1
  else if 12 ≤ size ∧ size < 15 then 2
  else if 15 ≤ size ∧ size < 20 then 5
  else if 20 ≤ size ∧ size < 25 then 10
  else if 25 ≤ size then 20
  else 0

/-- MockGameAPI.calculateWin. The betAmount argument is accepted and never
used, exactly as in the source (bet scaling happens in generateDemoOutcome). -/
def calculateWin (clusters : List Cluster) (betAmount : ℚ) : ℚ :=
  clusters.foldl (fun total cl => total + clusterPayout cl.size) 0

/-- A refill cell as produced by the newSymbols map of processTumbles. -/
structure NewSymbol where
  col : Int
  row : Int
  symbolId : Nat
deriving DecidableEq, Repr

/-- One tumble step record, as pushed by MockGameAPI.processTumbles. -/
structure Tumble where
  tumbleIndex : Nat
  clusters : List Cluster
  multipliers : List Multiplier
  winAmount : ℚ
  multiplier : ℚ
  removePositions : List Pos
  newSymbols : List NewSymbol
deriving DecidableEq, Repr

/-- The params record handed to generateDemoOutcome / processTumbles. -/
structure SpinParams where
  betAmount : ℚ
  anteBet : Bool
  isFreeSpins : Bool
  accumulatedMultiplier : ℚ
deriving DecidableEq, Repr

/-- The removePositions collection loop of processTumbles: push each cluster
position unless an equal position was already pushed. -/
def dedupPositions (clusters : List Cluster) : List Pos :=
  clusters.foldl
    (fun acc cl =>
      cl.positions.foldl (fun acc2 p => if p ∈ acc2 then acc2 else acc2 ++ [p]) acc)
    []

/-- The newSymbols map of processTumbles: one draw per removed position. -/
def drawNewSymbols (anteBet : Bool) (positions : List Pos) (g0 : Rng) :
    List NewSymbol × Rng :=
  positions.foldl
    (fun acc p =>
      let d := acc.2.next
      (acc.1 ++ [⟨p.col, p.row, getRandomSymbol anteBet d.1⟩], d.2))
    ([], g0)

/-- The grid update loop of processTumbles. -/
def applyNewSymbols (grid : Grid) (newSymbols : List NewSymbol) : Grid :=
  newSymbols.foldl (fun acc ns => setCell acc ns.col ns.row ns.symbolId) grid

/-- multipliers.reduce((sum, m) => sum + m.value, 0). -/
def multValueSum (ms : List Multiplier) : ℚ := ms.foldl (fun s m => s + m.value) 0

/-- The totalWin forEach of generateDemoOutcome: sum of tumble step wins. -/
def tumbleWinSum (ts : List Tumble) : ℚ := ts.foldl (fun s t => s + t.winAmount) 0

/-- The while (tumbleIndex < 5) loop of MockGameAPI.processTumbles; fuel
counts the iterations still allowed by the cap (fuel = 5 - tumbleIndex).
Returns (tumbles, working grid, rng). -/
def processTumblesLoop (params : SpinParams) :
    Nat → Nat → Grid → Rng → List Tumble → List Tumble × Grid × Rng
  | 0, _, grid, g, tumbles => (tumbles, grid, g)
  | fuel + 1, tumbleIndex, grid, g, tumbles =>
    let clusters := detectClusters grid
    if clusters = [] then (tumbles, grid, g)
    else
      let fm := findMultipliers grid g
      let winAmount := calculateWin clusters params.betAmount
      let removePositions := dedupPositions clusters
      let ns := drawNewSymbols params.anteBet removePositions fm.2
      let tumble : Tumble :=
        { tumbleIndex := tumbleIndex
          clusters := clusters
          multipliers := fm.1
          winAmount := winAmount
          multiplier := if 0 < fm.1.length then multValueSum fm.1 else 1
          removePositions := removePositions
          newSymbols := ns.1 }
      processTumblesLoop params fuel (tumbleIndex + 1)
        (applyNewSymbols grid ns.1) ns.2 (tumbles ++ [tumble])

/-- MockGameAPI.processTumbles: deep-copies the initial grid into a working
grid, then runs the capped tumble loop. -/
def processTumbles (initialGrid : Grid) (params : SpinParams) (g : Rng) :
    List Tumble × Grid × Rng :=
  processTumblesLoop params 5 0 initialGrid g []

/-- The winData record of a spin outcome. -/
structure WinData where
  clusters : List Cluster
  totalWin : ℚ
  multipliers : List Multiplier
  finalMultiplier : ℚ
deriving DecidableEq, Repr

/-- The freeSpins record of a spin outcome. -/
structure FreeSpinsData where
  triggered : Bool
  remaining : Nat
  totalAwarded : Nat
  retriggered : Bool
deriving DecidableEq, Repr

/-- A resolved spin outcome; spinId, roundId, timestamp and signature are
opaque identifiers in the source and are omitted. -/
structure Outcome where
  grid : Grid
  tumbles : List Tumble
  winData : WinData
  freeSpins : FreeSpinsData

/-- MockGameAPI.generateDemoOutcome. -/
def generateDemoOutcome (params : SpinParams) (g0 : Rng) : Outcome :=
  let gg := generateGrid params.anteBet g0
  let grid := gg.1
  let pt := processTumbles grid params gg.2
  let tumbles := pt.1
  let totalWin0 := tumbleWinSum tumbles
  let allClusters := tumbles.foldl (fun acc t => acc ++ t.clusters) []
  let allMultipliers := tumbles.foldl (fun acc t => acc ++ t.multipliers) []
  let res :=
    if params.isFreeSpins ∧ 0 < allMultipliers.length then
      let fm := params.accumulatedMultiplier + multValueSum allMultipliers
      (totalWin0 * fm, fm)
    else (totalWin0, 1)
  let scatterCount := countScatters grid
  let freeSpinsTriggered : Bool := decide (4 ≤ scatterCount)
  { grid := grid
    tumbles := tumbles
    winData :=
      { clusters := allClusters
        totalWin := res.1 * params.betAmount
        multipliers := allMultipliers
        finalMultiplier := res.2 }
    freeSpins :=
      { triggered := freeSpinsTriggered
        remaining := if freeSpinsTriggered then 10 else 0
        totalAwarded := if freeSpinsTriggered then 10 else 0
        retriggered := false } }

/-- Number of sample points k (k = 0..99, standing for random = k/100) whose
draw yields the scatter symbol 9. Since every comparison threshold inside
getRandomSymbol is an integer and the scatter branch covers a half-open
interval of rand = random * 100, this count equals the percentage of the
uniform draw interval mapped to the scatter. -/
def scatterHits (anteBet : Bool) : Nat :=
  ((List.range 100).filter fun k => getRandomSymbol anteBet ((k : ℚ) / 100) = 9).length

/-- The all-zero grid: every cell holds pay symbol 0 (Banana). -/
def gridZero : Grid := fun _ _ => 0

/-- A draw stream that always yields 0, so every drawn symbol is 0. -/
def rngZero : Rng := ⟨fun _ => 0, 0⟩

/-- Draw value (random in [0,1)) that produces a given symbol for a non-ante
draw: the left endpoint of the symbol interval of getRandomSymbol. -/
def drawFor (s : Nat) : ℚ :=
  if s = 0 then 0
  else if s = 5 then 25/100
  else if s = 6 then 40/100
  else if s = 7 then 55/100
  else if s = 8 then 70/100
  else if s = 9 then 85/100
  else if s = 10 then 95/100
  else 0

/-- Scenario A stream. The first 30 draws build the initial grid col-major:
cells (c, r) with c ≤ 1 and r ≤ 3 hold symbol 0 (a single 8-cell block),
all other cells hold the checkerboard 5 / 6 (no further cluster is
possible). No scatters, no bombs. Draws from index 30 on refill the removed
block alternating symbols 7 and 8, so no new cluster can form. -/
def streamA : Nat → ℚ := fun n =>
  if n < 30 then
    let c := n / 5
    let r := n % 5
    if c ≤ 1 ∧ r ≤ 3 then drawFor 0
    else if (c + r) % 2 = 0 then drawFor 5 else drawFor 6
  else if (n - 30) % 2 = 0 then drawFor 7 else drawFor 8

/-- Scenario A rng. -/
def rngA : Rng := ⟨streamA, 0⟩

/-- Scenario A params: a free-spin resolve with a prior accumulated
multiplier of 5 and a bet of 2. -/
def paramsA : SpinParams :=
  { betAmount := 2, anteBet := false, isFreeSpins := true, accumulatedMultiplier := 5 }

/-- Scenario B stream: like scenario A but cell (5, 4) of the initial grid
holds the multiplier bomb (symbol 10); draw index 30 is the bomb value draw
(0, giving multiplierValues[0] = 2) and the refills follow. -/
def streamB : Nat → ℚ := fun n =>
  if n < 30 then
    let c := n / 5
    let r := n % 5
    if c ≤ 1 ∧ r ≤ 3 then drawFor 0
    else if c = 5 ∧ r = 4 then drawFor 10
    else if (c + r) % 2 = 0 then drawFor 5 else drawFor 6
  else if n = 30 then 0
  else if (n - 31) % 2 = 0 then drawFor 7 else drawFor 8

/-- Scenario B rng. -/
def rngB : Rng := ⟨streamB, 0⟩

/-- Scenario B params: a plain base-game spin at bet 1. -/
def paramsB : SpinParams :=
  { betAmount := 1, anteBet := false, isFreeSpins := false, accumulatedMultiplier := 1 }

/-- Base-game params at bet 1 used with the all-zero stream. -/
def paramsZero : SpinParams :=
  { betAmount := 1, anteBet := false, isFreeSpins := false, accumulatedMultiplier := 1 }

/-- Fallback tumble record for list indexing in closed statements. -/
def tumbleDefault : Tumble :=
  { tumbleIndex := 0, clusters := [], multipliers := [], winAmount := 0,
    multiplier := 1, removePositions := [], newSymbols := [] }

/-- Fallback cluster record for list indexing in closed statements. -/
def clusterDefault : Cluster := { symbolId := 0, positions := [], size := 0 }

/-- The free-spin session fields of GameStateManager relevant to the
accumulated multiplier. -/
structure SessionState where
  freeSpinsRemaining : Nat
  freeSpinsAccumulatedMultiplier : ℚ
deriving DecidableEq, Repr

/-- GameStateManager.triggerFreeSpins: the accumulated multiplier is reset
to 1 unless the free spins were retriggered. -/
def triggerFreeSpins (st : SessionState) (fs : FreeSpinsData) : SessionState :=
  if fs.retriggered then st
  else { st with freeSpinsAccumulatedMultiplier := 1 }

set_option maxHeartbeats 2000000 in
/-- Interval characterization of the scatter branch of getRandomSymbol: the
draw yields 9 exactly on [85/100, 95/100) with ante and on [85/100, 92/100)
without. -/
theorem getRandomSymbol_scatter_iff (q : ℚ) :
    (getRandomSymbol true q = 9 ↔ 85/100 ≤ q ∧ q < 95/100) ∧
      (getRandomSymbol false q = 9 ↔ 85/100 ≤ q ∧ q < 92/100) := by
  constructor
  · simp only [getRandomSymbol]
    simp only [if_true]
    split_ifs <;>
      first
        | exact iff_of_true rfl ⟨by linarith, by linarith⟩
        | exact iff_of_false (by norm_num) (by rintro ⟨ha, hb⟩; linarith)
  · simp only [getRandomSymbol]
    simp only [Bool.false_eq_true, if_false]
    split_ifs <;>
      first
        | exact iff_of_true rfl ⟨by linarith, by linarith⟩
        | exact iff_of_false (by norm_num) (by rintro ⟨ha, hb⟩; linarith)

attribute [local semireducible] Rat.add Rat.mul Rat.inv Rat.sub

/-- Two clusters share no cell position. -/
def ClustersDisjoint (c1 c2 : Cluster) : Prop :=
  ∀ p ∈ c1.positions, p ∉ c2.positions

/-- The visited set only grows during a flood fill. -/
theorem floodFillAux_visited_mono (grid : Grid) (sym : Nat) :
    ∀ (fuel : Nat) (queue visited positions : List Pos) (q : Pos),
      q ∈ visited → q ∈ (floodFillAux grid sym fuel queue visited positions).2 := by
  intro fuel
  induction fuel with
  | zero =>
    intro queue visited positions q hq
    simpa [floodFillAux] using hq
  | succ n ih =>
    intro queue visited positions q hq
    cases queue with
    | nil => simpa [floodFillAux] using hq
    | cons p rest =>
      simp only [floodFillAux]
      split
      · exact ih rest visited positions q hq
      · split
        · exact ih rest visited positions q hq
        · split
          · exact ih rest visited positions q hq
          · exact ih _ _ _ q (List.mem_cons_of_mem _ hq)

/-- Every position collected by a flood fill was unvisited at the start of
the fill, is visited at its end, and carries the target symbol. -/
theorem floodFillAux_mem_spec (grid : Grid) (sym : Nat) :
    ∀ (fuel : Nat) (queue visited positions : List Pos) (q : Pos),
      q ∈ (floodFillAux grid sym fuel queue visited positions).1 →
      q ∈ positions ∨
        (q ∉ visited ∧ q ∈ (floodFillAux grid sym fuel queue visited positions).2 ∧
          grid q.col q.row = sym) := by
  intro fuel
  induction fuel with
  | zero =>
    intro queue visited positions q hq
    simp only [floodFillAux] at hq
    exact Or.inl hq
  | succ n ih =>
    intro queue visited positions q hq
    cases queue with
    | nil =>
      simp only [floodFillAux] at hq
      exact Or.inl hq
    | cons p rest =>
      simp only [floodFillAux] at hq ⊢
      by_cases h1 : p.col < 0 ∨ 6 ≤ p.col ∨ p.row < 0 ∨ 5 ≤ p.row
      · rw [if_pos h1] at hq ⊢
        exact ih rest visited positions q hq
      · rw [if_neg h1] at hq ⊢
        by_cases h2 : p ∈ visited
        · rw [if_pos h2] at hq ⊢
          exact ih rest visited positions q hq
        · rw [if_neg h2] at hq ⊢
          by_cases h3 : grid p.col p.row ≠ sym
          · rw [if_pos h3] at hq ⊢
            exact ih rest visited positions q hq
          · rw [if_neg h3] at hq ⊢
            have hsym : grid p.col p.row = sym := not_not.mp h3
            rcases ih _ _ _ q hq with hmem | hfresh
            · rcases List.mem_append.mp hmem with hin | hnew
              · exact Or.inl hin
              · have hqp : q = p := by simpa using hnew
                subst hqp
                refine Or.inr ⟨h2, ?_, hsym⟩
                exact floodFillAux_visited_mono grid sym n _ _ _ q (List.mem_cons_self _ _)
            · exact Or.inr
                ⟨fun hv0 => hfresh.1 (List.mem_cons_of_mem _ hv0), hfresh.2.1, hfresh.2.2⟩

/-- floodFill-level form of the visited monotonicity. -/
theorem floodFill_visited_mono (grid : Grid) (c r : Int) (sym : Nat)
    (visited : List Pos) (q : Pos) (hq : q ∈ visited) :
    q ∈ (floodFill grid c r sym visited).2 :=
  floodFillAux_visited_mono grid sym floodFillFuel _ visited [] q hq

/-- floodFill-level form of the position specification. -/
theorem floodFill_mem_spec (grid : Grid) (c r : Int) (sym : Nat)
    (visited : List Pos) (q : Pos) (hq : q ∈ (floodFill grid c r sym visited).1) :
    q ∉ visited ∧ q ∈ (floodFill grid c r sym visited).2 ∧ grid q.col q.row = sym := by
  rcases floodFillAux_mem_spec grid sym floodFillFuel _ visited [] q hq with h | h
  · simp at h
  · exact h

/-- Main invariant of the detectClusters scan: emitted clusters lie inside
the final visited set, are pairwise disjoint, have at least 8 cells, a size
field equal to their cell count, a non-special symbol, and all their cells
carry that symbol on the grid. -/
theorem detectClustersAux_inv (grid : Grid) :
    ∀ (scan visited : List Pos) (clusters : List Cluster),
      (∀ cl ∈ clusters, ∀ p ∈ cl.positions, p ∈ visited) →
      List.Pairwise ClustersDisjoint clusters →
      (∀ cl ∈ clusters, 8 ≤ cl.positions.length ∧ cl.size = cl.positions.length ∧
          cl.symbolId ≠ 9 ∧ cl.symbolId ≠ 10 ∧
          ∀ p ∈ cl.positions, grid p.col p.row = cl.symbolId) →
      (∀ cl ∈ (detectClustersAux grid scan visited clusters).1,
          ∀ p ∈ cl.positions, p ∈ (detectClustersAux grid scan visited clusters).2) ∧
        List.Pairwise ClustersDisjoint (detectClustersAux grid scan visited clusters).1 ∧
        (∀ cl ∈ (detectClustersAux grid scan visited clusters).1,
          8 ≤ cl.positions.length ∧ cl.size = cl.positions.length ∧
          cl.symbolId ≠ 9 ∧ cl.symbolId ≠ 10 ∧
          ∀ p ∈ cl.positions, grid p.col p.row = cl.symbolId) := by
  intro scan
  induction scan with
  | nil =>
    intro visited clusters h1 h2 h3
    simp only [detectClustersAux]
    exact ⟨h1, h2, h3⟩
  | cons p rest ih =>
    intro visited clusters h1 h2 h3
    simp only [detectClustersAux]
    by_cases hv : p ∈ visited
    · rw [if_pos hv]
      exact ih visited clusters h1 h2 h3
    · rw [if_neg hv]
      by_cases hs : grid p.col p.row = 9 ∨ grid p.col p.row = 10
      · rw [if_pos hs]
        exact ih (p :: visited) clusters
          (fun cl hcl q hq => List.mem_cons_of_mem _ (h1 cl hcl q hq)) h2 h3
      · rw [if_neg hs]
        by_cases hlen :
            8 ≤ (floodFill grid p.col p.row (grid p.col p.row) visited).1.length
        · rw [if_pos hlen]
          push_neg at hs
          refine ih _ _ ?_ ?_ ?_
          · intro cl hcl q hq
            rcases List.mem_append.mp hcl with hold | hnew
            · exact floodFill_visited_mono grid p.col p.row _ visited q (h1 cl hold q hq)
            · have hcl_eq : cl =
                  ⟨grid p.col p.row,
                    (floodFill grid p.col p.row (grid p.col p.row) visited).1,
                    (floodFill grid p.col p.row (grid p.col p.row) visited).1.length⟩ := by
                simpa using hnew
              subst hcl_eq
              exact (floodFill_mem_spec grid p.col p.row _ visited q hq).2.1
          · rw [List.pairwise_append]
            refine ⟨h2, by simp, ?_⟩
            intro c1 hc1 c2 hc2
            have hc2_eq : c2 =
                ⟨grid p.col p.row,
                  (floodFill grid p.col p.row (grid p.col p.row) visited).1,
                  (floodFill grid p.col p.row (grid p.col p.row) visited).1.length⟩ := by
              simpa using hc2
            subst hc2_eq
            intro q hq hq2
            exact (floodFill_mem_spec grid p.col p.row _ visited q hq2).1 (h1 c1 hc1 q hq)
          · intro cl hcl
            rcases List.mem_append.mp hcl with hold | hnew
            · exact h3 cl hold
            · have hcl_eq : cl =
                  ⟨grid p.col p.row,
                    (floodFill grid p.col p.row (grid p.col p.row) visited).1,
                    (floodFill grid p.col p.row (grid p.col p.row) visited).1.length⟩ := by
                simpa using hnew
              subst hcl_eq
              refine ⟨hlen, rfl, hs.1, hs.2, ?_⟩
              intro q hq
              exact (floodFill_mem_spec grid p.col p.row _ visited q hq).2.2
        · rw [if_neg hlen]
          refine ih _ _ ?_ h2 h3
          intro cl hcl q hq
          exact floodFill_visited_mono grid p.col p.row _ visited q (h1 cl hcl q hq)

/-- C5: for every grid, every cluster emitted by the cluster detector has at
least MIN_CLUSTER_SIZE = 8 cells (its size field equals its cell count), and
no two emitted clusters share a cell position. -/
theorem detectClusters_min_size_disjoint (grid : Grid) :
    (∀ cl ∈ detectClusters grid,
        MIN_CLUSTER_SIZE ≤ cl.positions.length ∧ cl.size = cl.positions.length) ∧
      List.Pairwise ClustersDisjoint (detectClusters grid) := by
  have h := detectClustersAux_inv grid scanOrder [] [] (by simp) (by simp) (by simp)
  exact ⟨fun cl hcl => ⟨(h.2.2 cl hcl).1, (h.2.2 cl hcl).2.1⟩, h.2.1⟩

/-- C5 witness: on the all-zero grid, the emitted cluster indeed has at
least the minimum number of cells. -/
theorem detectClusters_min_size_disjoint_witness :
    MIN_CLUSTER_SIZE ≤ ((detectClusters gridZero).getD 0 clusterDefault).positions.length ∧
      ((detectClusters gridZero).getD 0 clusterDefault).size =
        ((detectClusters gridZero).getD 0 clusterDefault).positions.length :=
  (detectClusters_min_size_disjoint gridZero).1 _ (by decide)

/-- C6: for every grid, no cluster emitted by the cluster detector contains
a cell holding the scatter symbol 9 or the multiplier symbol 10. -/
theorem detectClusters_no_special (grid : Grid) :
    ∀ cl ∈ detectClusters grid, ∀ p ∈ cl.positions,
      grid p.col p.row ≠ 9 ∧ grid p.col p.row ≠ 10 := by
  intro cl hcl p hp
  have h := detectClustersAux_inv grid scanOrder [] [] (by simp) (by simp) (by simp)
  have h3 := h.2.2 cl hcl
  have hsym := h3.2.2.2.2 p hp
  rw [hsym]
  exact ⟨h3.2.2.1, h3.2.2.2.1⟩

/-- Position used by the C6 witness: the first cell of the first cluster
found on the all-zero grid. -/
def witnessPos : Pos :=
  ((detectClusters gridZero).getD 0 clusterDefault).positions.getD 0 ⟨0, 0⟩

/-- C6 witness: on the all-zero grid, the first cluster cell holds neither
the scatter nor the multiplier symbol. -/
theorem detectClusters_no_special_witness :
    gridZero witnessPos.col witnessPos.row ≠ 9 ∧
      gridZero witnessPos.col witnessPos.row ≠ 10 :=
  detectClusters_no_special gridZero ((detectClusters gridZero).getD 0 clusterDefault)
    (by decide) witnessPos (by decide)

/-- Every tumble record produced by the loop has winAmount equal to the raw
calculateWin of its clusters: no multiplier is ever folded into it. -/
theorem processTumblesLoop_winAmount (params : SpinParams) :
    ∀ (fuel tumbleIndex : Nat) (grid : Grid) (g : Rng) (tumbles : List Tumble),
      (∀ t ∈ tumbles, t.winAmount = calculateWin t.clusters params.betAmount) →
      ∀ t ∈ (processTumblesLoop params fuel tumbleIndex grid g tumbles).1,
        t.winAmount = calculateWin t.clusters params.betAmount := by
  intro fuel
  induction fuel with
  | zero =>
    intro ti grid g tumbles hInv t ht
    simp only [processTumblesLoop] at ht
    exact hInv t ht
  | succ n ih =>
    intro ti grid g tumbles hInv t ht
    simp only [processTumblesLoop] at ht
    by_cases hc : detectClusters grid = []
    · rw [if_pos hc] at ht
      exact hInv t ht
    · rw [if_neg hc] at ht
      refine ih _ _ _ _ ?_ t ht
      intro t2 ht2
      rcases List.mem_append.mp ht2 with hold | hnew
      · exact hInv t2 hold
      · have ht2eq := List.mem_singleton.mp hnew
        subst ht2eq
        rfl

/-- The loop can add at most one tumble per unit of fuel. -/
theorem processTumblesLoop_length (params : SpinParams) :
    ∀ (fuel tumbleIndex : Nat) (grid : Grid) (g : Rng) (tumbles : List Tumble),
      (processTumblesLoop params fuel tumbleIndex grid g tumbles).1.length ≤
        tumbles.length + fuel := by
  intro fuel
  induction fuel with
  | zero =>
    intro ti grid g tumbles
    simp [processTumblesLoop]
  | succ n ih =>
    intro ti grid g tumbles
    simp only [processTumblesLoop]
    by_cases hc : detectClusters grid = []
    · rw [if_pos hc]
      exact Nat.le_add_right _ _
    · rw [if_neg hc]
      refine le_trans (ih _ _ _ _) ?_
      simp only [List.length_append, List.length_cons, List.length_nil]
      omega

/-- C4 amended: the tumble loop is capped at 5 iterations; a resolved spin
never carries more than 5 tumble steps, and reaching the cap is not an
error: the resolver returns the steps accumulated so far. -/
theorem processTumbles_capped (initialGrid : Grid) (params : SpinParams) (g : Rng) :
    (processTumbles initialGrid params g).1.length ≤ 5 :=
  processTumblesLoop_length params 5 0 initialGrid g []

set_option maxRecDepth 1000000 in
set_option maxHeartbeats 4000000 in
/-- C4 counterexample: on the all-zero grid with an all-zero refill stream,
every iteration keeps finding the full-board cluster; the loop silently
stops after 5 tumbles while the final working grid still contains clusters,
and the outcome reports the win of the truncated 5-step sequence with no
error surfaced. -/
theorem processTumbles_cap_counterexample :
    (processTumbles gridZero paramsZero rngZero).1.length = 5 ∧
      detectClusters (processTumbles gridZero paramsZero rngZero).2.1 ≠ [] ∧
      tumbleWinSum (processTumbles gridZero paramsZero rngZero).1 = 100 ∧
      (generateDemoOutcome paramsZero rngZero).winData.totalWin = 100 := by
  decide

/-- C4 witness: the cap theorem applied at the all-zero scenario. -/
theorem processTumbles_capped_witness :
    (processTumbles gridZero paramsZero rngZero).1.length ≤ 5 :=
  processTumbles_capped gridZero paramsZero rngZero

/-- C3 amended: in every resolved spin (base game or free spins alike),
each tumble step's winAmount equals the raw calculateWin of its clusters:
the step's multiplier sum is recorded in the step but never applied to the
step's win. -/
theorem tumble_win_unmultiplied (params : SpinParams) (g : Rng) :
    ∀ t ∈ (generateDemoOutcome params g).tumbles,
      t.winAmount = calculateWin t.clusters params.betAmount := by
  intro t ht
  have hrw : (generateDemoOutcome params g).tumbles =
      (processTumbles (generateGrid params.anteBet g).1 params
        (generateGrid params.anteBet g).2).1 := rfl
  rw [hrw] at ht
  exact processTumblesLoop_winAmount params 5 0 _ _ [] (by simp) t ht

set_option maxRecDepth 1000000 in
/-- C3 witness: the first tumble of scenario B. -/
theorem tumble_win_unmultiplied_witness :
    ((generateDemoOutcome paramsB rngB).tumbles.getD 0 tumbleDefault).winAmount =
      calculateWin
        ((generateDemoOutcome paramsB rngB).tumbles.getD 0 tumbleDefault).clusters
        paramsB.betAmount :=
  tumble_win_unmultiplied paramsB rngB
    ((generateDemoOutcome paramsB rngB).tumbles.getD 0 tumbleDefault) (by decide)

set_option maxRecDepth 1000000 in
/-- C3 counterexample: scenario B is a base-game spin whose first tumble has
a multiplier bomb on the grid (iteration multiplier sum 2) and a winning
cluster, yet its winAmount is the unmultiplied calculateWin value. -/
theorem tumble_multiplier_not_applied_counterexample :
    paramsB.isFreeSpins = false ∧
      ((generateDemoOutcome paramsB rngB).tumbles.getD 0 tumbleDefault).multiplier = 2 ∧
      ((generateDemoOutcome paramsB rngB).tumbles.getD 0 tumbleDefault).winAmount ≠
        ((generateDemoOutcome paramsB rngB).tumbles.getD 0 tumbleDefault).multiplier *
          calculateWin
            ((generateDemoOutcome paramsB rngB).tumbles.getD 0 tumbleDefault).clusters
            paramsB.betAmount := by
  decide

/-- C1 amended: the reported winData.totalWin is the sum of the tumble step
wins, multiplied by (accumulatedMultiplier + sum of the drawn multiplier
values) exactly when the spin is a free spin AND at least one multiplier
was drawn during the spin, and scaled by betAmount in every case. -/
theorem generateDemoOutcome_totalWin (params : SpinParams) (g : Rng) :
    (generateDemoOutcome params g).winData.totalWin =
      tumbleWinSum (generateDemoOutcome params g).tumbles *
        (if params.isFreeSpins ∧ (generateDemoOutcome params g).winData.multipliers ≠ [] then
            params.accumulatedMultiplier +
              multValueSum (generateDemoOutcome params g).winData.multipliers
          else 1) *
        params.betAmount := by
  simp only [generateDemoOutcome, apply_ite Prod.fst, apply_ite Prod.snd,
    List.length_pos]
  split
  · rfl
  · rw [mul_one]

set_option maxRecDepth 1000000 in
/-- C1 counterexample: scenario A is a free-spin resolve (accumulated
multiplier 5, bet 2) whose totalWin is neither the tumble win sum times the
accumulated multiplier nor the plain tumble win sum. -/
theorem totalWin_claim_counterexample :
    paramsA.isFreeSpins = true ∧
      (generateDemoOutcome paramsA rngA).winData.totalWin ≠
        tumbleWinSum (generateDemoOutcome paramsA rngA).tumbles *
          paramsA.accumulatedMultiplier ∧
      (generateDemoOutcome paramsA rngA).winData.totalWin ≠
        tumbleWinSum (generateDemoOutcome paramsA rngA).tumbles := by
  decide

/-- C2 amended: the returned finalMultiplier equals
accumulatedMultiplier + (sum of the multiplier values drawn in this spin)
only when the spin is a free spin and at least one multiplier was drawn;
otherwise it is 1 (the passed-in accumulation is dropped). The caller-side
session state does reset the accumulated multiplier to 1 on a
non-retriggered trigger. -/
theorem generateDemoOutcome_finalMultiplier (params : SpinParams) (g : Rng) :
    ((generateDemoOutcome params g).winData.finalMultiplier =
        if params.isFreeSpins ∧ (generateDemoOutcome params g).winData.multipliers ≠ [] then
          params.accumulatedMultiplier +
            multValueSum (generateDemoOutcome params g).winData.multipliers
        else 1) ∧
      ∀ (st : SessionState) (fs : FreeSpinsData),
        (triggerFreeSpins st fs).freeSpinsAccumulatedMultiplier =
          if fs.retriggered then st.freeSpinsAccumulatedMultiplier else 1 := by
  constructor
  · simp only [generateDemoOutcome, apply_ite Prod.fst, apply_ite Prod.snd,
      List.length_pos]
  · intro st fs
    unfold triggerFreeSpins
    split <;> rfl

set_option maxRecDepth 1000000 in
/-- C2 counterexample: scenario A is a free-spin resolve with accumulated
multiplier 5 in which no multiplier symbol is drawn; the returned
finalMultiplier is 1, not 5 + 0, so chaining drops the accumulation. -/
theorem finalMultiplier_carry_counterexample :
    paramsA.isFreeSpins = true ∧
      paramsA.accumulatedMultiplier = 5 ∧
      (generateDemoOutcome paramsA rngA).winData.multipliers = [] ∧
      (generateDemoOutcome paramsA rngA).winData.finalMultiplier ≠
        paramsA.accumulatedMultiplier +
          multValueSum (generateDemoOutcome paramsA rngA).winData.multipliers := by
  decide

/-- C7: freeSpinsTriggered holds exactly when the initial (pre-tumble) grid
contains at least 4 scatters, awarding 10 free spins; the outcome's grid is
that initial grid, and the scatter count is never re-evaluated on
post-tumble grids. -/
theorem freeSpins_trigger_initial_grid (params : SpinParams) (g : Rng) :
    ((generateDemoOutcome params g).freeSpins.triggered = true ↔
        4 ≤ countScatters (generateGrid params.anteBet g).1) ∧
      (generateDemoOutcome params g).grid = (generateGrid params.anteBet g).1 ∧
      (generateDemoOutcome params g).freeSpins.totalAwarded =
        (if 4 ≤ countScatters (generateGrid params.anteBet g).1 then 10 else 0) ∧
      (generateDemoOutcome params g).freeSpins.remaining =
        (if 4 ≤ countScatters (generateGrid params.anteBet g).1 then 10 else 0) := by
  refine ⟨?_, rfl, ?_, ?_⟩ <;>
    simp [generateDemoOutcome, decide_eq_true_eq]

set_option maxRecDepth 1000000 in
/-- C10: the grid field of every resolved outcome is the pre-tumble initial
grid (the tumble loop works on a copy); in scenario A the spin does tumble
and the working grid ends up different from the reported one. -/
theorem outcome_grid_is_initial :
    (∀ (params : SpinParams) (g : Rng),
        (generateDemoOutcome params g).grid = (generateGrid params.anteBet g).1) ∧
      (generateDemoOutcome paramsA rngA).tumbles ≠ [] ∧
      (processTumbles (generateGrid paramsA.anteBet rngA).1 paramsA
          (generateGrid paramsA.anteBet rngA).2).2.1 0 0 ≠
        (generateDemoOutcome paramsA rngA).grid 0 0 := by
  refine ⟨fun params g => rfl, by decide, by decide⟩

set_option maxRecDepth 1000000 in
/-- C8: a 6x5 grid uniformly filled with one non-special pay symbol yields
exactly one cluster, of size 30. -/
theorem detectClusters_uniform_grid (s : Nat) (h : s ≤ 8) :
    ((detectClusters fun _ _ => s).map fun cl => cl.size) = [30] := by
  interval_cases s <;> decide

/-- C8 witness: the uniform grid of symbol 0. -/
theorem detectClusters_uniform_grid_witness :
    (0 : Nat) ≤ 8 ∧ ((detectClusters fun _ _ => (0 : Nat)).map fun cl => cl.size) = [30] :=
  ⟨Nat.zero_le 8, detectClusters_uniform_grid 0 (Nat.zero_le 8)⟩

/-- C9 counterexample: the scatter draw covers 10 of the 100 integer sample
points with ante and 7 without: the ante probability is not exactly twice
the base probability. -/
theorem scatter_double_counterexample :
    scatterHits true = 10 ∧ scatterHits false = 7 ∧
      scatterHits true ≠ 2 * scatterHits false := by
  decide

/-- C9 amended: the scatter preimage interval is [85/100, 95/100) with ante
and [85/100, 92/100) without (10 percent versus 7 percent of the uniform
draw interval, a ratio of 10/7, not exactly 2). -/
theorem scatter_window_exact :
    (∀ q : ℚ,
        (getRandomSymbol true q = 9 ↔ 85/100 ≤ q ∧ q < 95/100) ∧
          (getRandomSymbol false q = 9 ↔ 85/100 ≤ q ∧ q < 92/100)) ∧
      scatterHits true = 10 ∧ scatterHits false = 7 :=
  ⟨fun q => getRandomSymbol_scatter_iff q, by decide, by decide⟩

end SweetBonanza
